import Mathlib

/-!
Shallow embedding of the EduGlobe enrollment lifecycle
(`src/Enrollment.js` model methods and `src/enrollments.js` route handlers).

Modelling conventions:
- Timestamps (`Date.now()`, `new Date()`) are `Nat` values passed in as a
  `now` parameter.
- Mongo ObjectIds are `String`s.
- JS template interpolation of a number is modelled by `natStr`, the decimal
  rendering of a `Nat`.
- A model method that mutates `this` and then calls `this.save()` is a pure
  function ending in `preSave` (the `pre('save')` hook of the schema).
- A method that can `throw` (or a handler branch that answers an error status)
  returns `MResult`: `.ok` carries the saved record, `.err` carries the error
  message together with the state of the record at throw time, so that
  atomicity of failing calls is expressible.
-/

namespace EduGlobe

/-- `status` enum of the enrollment schema. -/
inductive EStatus where
  | active | completed | cancelled | expired
deriving DecidableEq, Repr

/-- `payment.method` enum of the enrollment schema. -/
inductive PayMethod where
  | credit_card | paypal | stripe | bank_transfer | crypto
deriving DecidableEq, Repr

/-- `payment.status` enum of the enrollment schema. -/
inductive PayStatus where
  | pending | completed | failed | refunded
deriving DecidableEq, Repr

/-- `refundStatus` enum of the enrollment schema. -/
inductive RefundStatus where
  | none | pending | approved | rejected
deriving DecidableEq, Repr

/-- One entry of `completedLectures`. -/
structure CompletedLecture where
  lecture : String
  completedAt : Nat
  timeSpent : Nat
deriving DecidableEq, Repr

/-- The `certificate` sub-record. -/
structure Certificate where
  issued : Bool
  issuedAt : Option Nat
  certificateId : Option String
  downloadUrl : Option String
deriving DecidableEq, Repr

/-- The `payment` sub-record. -/
structure Payment where
  amount : Nat
  currency : String
  method : PayMethod
  transactionId : String
  status : PayStatus
  paidAt : Nat
deriving DecidableEq, Repr

/-- The `rating` sub-record. -/
structure Rating where
  given : Bool
  rating : Option Nat
  review : Option String
  reviewedAt : Option Nat
deriving DecidableEq, Repr

/-- The Enrollment document (`enrollmentSchema` in `src/Enrollment.js`). -/
structure Enrollment where
  id : String
  student : String
  course : String
  instructor : String
  enrollmentDate : Nat
  completionDate : Option Nat
  status : EStatus
  progress : Nat
  completedLectures : List CompletedLecture
  lastAccessed : Nat
  totalTimeSpent : Nat
  certificate : Certificate
  payment : Payment
  notes : Option String
  rating : Rating
  accessExpiry : Option Nat
  isLifetime : Bool
  refundRequested : Bool
  refundReason : Option String
  refundStatus : RefundStatus
  refundProcessedAt : Option Nat
  refundAmount : Option Nat
deriving DecidableEq, Repr

/-- The subset of the Course document used by the enrollment route
(`src/enrollments.js` reads `status`, `instructor`, `price`, `currency`,
`enrollmentCount`; the Course model file itself is outside this embedding, so
`status` stays a raw string compared to `'published'` exactly as the handler
does). -/
structure Course where
  id : String
  instructor : String
  price : Nat
  currency : String
  status : String
  enrollmentCount : Nat
deriving DecidableEq, Repr

/-- Result of a mutating operation: `.ok` is the saved record; `.err` is a
thrown/rejected call, carrying the message and the in-memory state of the
record at the moment the error was raised. -/
inductive MResult where
  | ok (e : Enrollment)
  | err (msg : String) (state : Enrollment)
deriving DecidableEq, Repr

/-- The record state a call leaves behind: the saved record on success, the
at-throw state on failure. -/
def MResult.state : MResult → Enrollment
  | .ok e => e
  | .err _ s => s

/-- Whether the call failed. -/
def MResult.isErr : MResult → Bool
  | .ok _ => false
  | .err _ _ => true

/-- `enrollmentSchema.pre('save', ...)` (Enrollment.js:170-176): on save, if
`progress === 100 && status !== 'completed'`, set `status = 'completed'` and
`completionDate = new Date()`. -/
def preSave (now : Nat) (e : Enrollment) : Enrollment :=
  if e.progress = 100 ∧ e.status ≠ .completed then
    { e with status := .completed, completionDate := some now }
  else e

/-- `enrollmentSchema.methods.updateProgress` (Enrollment.js:199-206):
if `completedLectures.length > 0`, set
`progress = Math.min(100, completedLectures.length * 10)`. -/
def updateProgress (e : Enrollment) : Enrollment :=
  if e.completedLectures.length > 0 then
    { e with progress := min 100 (e.completedLectures.length * 10) }
  else e

/-- `enrollmentSchema.methods.completeLecture` (Enrollment.js:179-196):
push `{lecture, timeSpent}` (with default `completedAt = Date.now`) when no
entry with the same lecture id exists, then `updateProgress()`, stamp
`lastAccessed`, and `save()` (which runs the pre-save hook). -/
def completeLecture (lectureId : String) (timeSpent : Nat) (now : Nat)
    (e : Enrollment) : Enrollment :=
  let e1 :=
    if e.completedLectures.any (fun cl => cl.lecture == lectureId) then e
    else { e with completedLectures :=
            e.completedLectures ++ [⟨lectureId, now, timeSpent⟩] }
  let e2 := updateProgress e1
  preSave now { e2 with lastAccessed := now }

/-- Decimal rendering of a `Nat`, modelling JS number-to-string conversion in
a template literal. -/
def natStr (n : Nat) : String :=
  if n = 0 then "0" else ⟨(Nat.digits 10 n).reverse.map Nat.digitChar⟩

/-- The certificate id template of Enrollment.js:213:
`` `CERT-${this._id}-${Date.now()}` ``. -/
def certIdStr (id : String) (now : Nat) : String :=
  "CERT-" ++ id ++ "-" ++ natStr now

/-- `enrollmentSchema.methods.issueCertificate` (Enrollment.js:209-218). -/
def issueCertificate (now : Nat) (e : Enrollment) : MResult :=
  if e.progress = 100 ∧ e.certificate.issued = false then
    let cid := certIdStr e.id now
    .ok (preSave now { e with certificate :=
      { issued := true
        issuedAt := some now
        certificateId := some cid
        downloadUrl := some ("/certificates/" ++ cid) } })
  else
    .err "Cannot issue certificate: course not completed or already issued" e

/-- `enrollmentSchema.methods.requestRefund` (Enrollment.js:221-231). -/
def requestRefund (reason : String) (now : Nat) (e : Enrollment) : MResult :=
  if e.refundRequested then
    .err "Refund already requested" e
  else
    .ok (preSave now { e with refundRequested := true
                              refundReason := some reason
                              refundStatus := .pending })

/-- Body of the `POST /api/enrollments/:id/review` handler
(enrollments.js:279-293), after the not-found and ownership checks: reject
with 400 when `rating.given` is already true, otherwise store the rating
fields and save. -/
def addReview (ratingVal : Nat) (review : Option String) (now : Nat)
    (e : Enrollment) : MResult :=
  if e.rating.given then
    .err "You have already reviewed this course" e
  else
    .ok (preSave now { e with rating :=
      { given := true
        rating := some ratingVal
        review := review
        reviewedAt := some now } })

/-- Body of the `PUT /api/enrollments/:id/refund-status` handler
(enrollments.js:461-497): express-validator accepts
`refundStatus ∈ {pending, approved, rejected}` (400 otherwise); then the
handler assigns `refundStatus`, assigns `refundAmount` when the body value is
truthy (`if (refundAmount)`), stamps `refundProcessedAt` and saves. -/
def updateRefundStatus (newStatus : RefundStatus) (amount : Option Nat)
    (now : Nat) (e : Enrollment) : MResult :=
  if newStatus = .pending ∨ newStatus = .approved ∨ newStatus = .rejected then
    let e1 := { e with refundStatus := newStatus }
    let e2 := match amount with
      | some a => if a ≠ 0 then { e1 with refundAmount := some a } else e1
      | Option.none => e1
    .ok (preSave now { e2 with refundProcessedAt := some now })
  else
    .err "Validation failed" e

/-- Body of the `POST /api/enrollments` handler (enrollments.js:36-97) after
input validation: `course?` is the result of `Course.findById`, `existing?`
the result of the duplicate-enrollment lookup, `newId` the fresh ObjectId of
the created document. Errors carry the HTTP status and message of the
handler's response. -/
def enroll (userId courseId : String) (method : PayMethod) (txnId : String)
    (newId : String) (now : Nat) (course? : Option Course)
    (existing? : Option Enrollment) :
    Except (Nat × String) (Enrollment × Course) :=
  match course? with
  | Option.none => .error (404, "Course not found")
  | some course =>
    if course.status ≠ "published" then
      .error (400, "Course is not available for enrollment")
    else
      match existing? with
      | some _ => .error (400, "You are already enrolled in this course")
      | Option.none =>
        let e : Enrollment :=
          { id := newId
            student := userId
            course := courseId
            instructor := course.instructor
            enrollmentDate := now
            completionDate := Option.none
            status := .active
            progress := 0
            completedLectures := []
            lastAccessed := now
            totalTimeSpent := 0
            certificate := ⟨false, Option.none, Option.none, Option.none⟩
            payment :=
              { amount := course.price
                currency := course.currency
                method := method
                transactionId := txnId
                status := .completed
                paidAt := now }
            notes := Option.none
            rating := ⟨false, Option.none, Option.none, Option.none⟩
            accessExpiry := Option.none
            isLifetime := true
            refundRequested := false
            refundReason := Option.none
            refundStatus := .none
            refundProcessedAt := Option.none
            refundAmount := Option.none }
        .ok (preSave now e,
             { course with enrollmentCount := course.enrollmentCount + 1 })

/-- The `isExpired` virtual (Enrollment.js:156-159): false when lifetime,
otherwise `accessExpiry && new Date() > accessExpiry` (an unset
`accessExpiry` yields `undefined`, which is falsy, modelled as `false`). -/
def isExpired (now : Nat) (e : Enrollment) : Bool :=
  if e.isLifetime then false
  else
    match e.accessExpiry with
    | Option.none => false
    | some t => decide (now > t)

/-! ### Field-preservation facts about the pre-save hook -/

@[simp]
theorem preSave_progress (now : Nat) (e : Enrollment) :
    (preSave now e).progress = e.progress := by
  unfold preSave; split <;> rfl

@[simp]
theorem preSave_completedLectures (now : Nat) (e : Enrollment) :
    (preSave now e).completedLectures = e.completedLectures := by
  unfold preSave; split <;> rfl

@[simp]
theorem preSave_refundRequested (now : Nat) (e : Enrollment) :
    (preSave now e).refundRequested = e.refundRequested := by
  unfold preSave; split <;> rfl

@[simp]
theorem preSave_refundStatus (now : Nat) (e : Enrollment) :
    (preSave now e).refundStatus = e.refundStatus := by
  unfold preSave; split <;> rfl

@[simp]
theorem preSave_refundReason (now : Nat) (e : Enrollment) :
    (preSave now e).refundReason = e.refundReason := by
  unfold preSave; split <;> rfl

@[simp]
theorem preSave_refundProcessedAt (now : Nat) (e : Enrollment) :
    (preSave now e).refundProcessedAt = e.refundProcessedAt := by
  unfold preSave; split <;> rfl

@[simp]
theorem preSave_refundAmount (now : Nat) (e : Enrollment) :
    (preSave now e).refundAmount = e.refundAmount := by
  unfold preSave; split <;> rfl

@[simp]
theorem preSave_certificate (now : Nat) (e : Enrollment) :
    (preSave now e).certificate = e.certificate := by
  unfold preSave; split <;> rfl

@[simp]
theorem preSave_rating (now : Nat) (e : Enrollment) :
    (preSave now e).rating = e.rating := by
  unfold preSave; split <;> rfl

@[simp]
theorem preSave_id (now : Nat) (e : Enrollment) :
    (preSave now e).id = e.id := by
  unfold preSave; split <;> rfl

theorem preSave_of_completed (now : Nat) (e : Enrollment)
    (h : e.status = .completed) : preSave now e = e := by
  unfold preSave
  rw [if_neg]
  intro hc
  exact hc.2 h

@[simp]
theorem updateProgress_completedLectures (e : Enrollment) :
    (updateProgress e).completedLectures = e.completedLectures := by
  unfold updateProgress; split <;> rfl

@[simp]
theorem updateProgress_refundRequested (e : Enrollment) :
    (updateProgress e).refundRequested = e.refundRequested := by
  unfold updateProgress; split <;> rfl

theorem updateProgress_progress_pos (e : Enrollment)
    (h : e.completedLectures.length > 0) :
    (updateProgress e).progress = min 100 (e.completedLectures.length * 10) := by
  unfold updateProgress; rw [if_pos h]

/-! ### Decimal strings and the certificate-id template -/

theorem digitChar_ne_dash {d : Nat} (h : d < 10) : Nat.digitChar d ≠ '-' := by
  interval_cases d <;> decide

theorem toNat_digitChar {d : Nat} (h : d < 10) :
    (Nat.digitChar d).toNat - 48 = d := by
  interval_cases d <;> decide

theorem map_digitChar_inj {l1 l2 : List Nat}
    (h1 : ∀ d ∈ l1, d < 10) (h2 : ∀ d ∈ l2, d < 10)
    (h : l1.map Nat.digitChar = l2.map Nat.digitChar) : l1 = l2 := by
  have hmap := congrArg (List.map fun c => Char.toNat c - 48) h
  rw [List.map_map, List.map_map] at hmap
  have e1 : l1.map ((fun c => Char.toNat c - 48) ∘ Nat.digitChar) = l1 := by
    have hcong : l1.map ((fun c => Char.toNat c - 48) ∘ Nat.digitChar) =
        l1.map (fun d => d) :=
      List.map_congr_left fun d hd => toNat_digitChar (h1 d hd)
    rw [hcong, List.map_id']
  have e2 : l2.map ((fun c => Char.toNat c - 48) ∘ Nat.digitChar) = l2 := by
    have hcong : l2.map ((fun c => Char.toNat c - 48) ∘ Nat.digitChar) =
        l2.map (fun d => d) :=
      List.map_congr_left fun d hd => toNat_digitChar (h2 d hd)
    rw [hcong, List.map_id']
  rw [e1, e2] at hmap
  exact hmap

theorem natStr_no_dash (n : Nat) : '-' ∉ (natStr n).data := by
  unfold natStr
  split
  · decide
  · intro hmem
    have hmem' : '-' ∈ (Nat.digits 10 n).reverse.map Nat.digitChar := hmem
    rcases List.mem_map.mp hmem' with ⟨d, hd, hdc⟩
    have hd10 : d < 10 :=
      Nat.digits_lt_base (by norm_num) (List.mem_reverse.mp hd)
    exact digitChar_ne_dash hd10 hdc

theorem natStr_inj {m n : Nat} (h : natStr m = natStr n) : m = n := by
  have digits_of_data : ∀ k : Nat, k ≠ 0 →
      (natStr k).data = (Nat.digits 10 k).reverse.map Nat.digitChar := by
    intro k hk
    unfold natStr
    rw [if_neg hk]
  have bounds : ∀ k : Nat, ∀ d ∈ (Nat.digits 10 k).reverse, d < 10 := by
    intro k d hd
    exact Nat.digits_lt_base (by norm_num) (List.mem_reverse.mp hd)
  have zero_case : ∀ k : Nat, k ≠ 0 → natStr 0 = natStr k → False := by
    intro k hk h0
    have hd : ('0' :: []) = (Nat.digits 10 k).reverse.map Nat.digitChar := by
      have := congrArg String.data h0
      rwa [digits_of_data k hk] at this
    have hl : ([0] : List Nat).map Nat.digitChar =
        (Nat.digits 10 k).reverse.map Nat.digitChar := hd
    have : ([0] : List Nat) = (Nat.digits 10 k).reverse :=
      map_digitChar_inj (by decide) (bounds k) hl
    have hdig : Nat.digits 10 k = [0] := by
      have := congrArg List.reverse this
      simpa using this.symm
    have : k = 0 := by
      have hofd := Nat.ofDigits_digits 10 k
      rw [hdig] at hofd
      simpa [Nat.ofDigits] using hofd.symm
    exact hk this
  by_cases hm : m = 0 <;> by_cases hn : n = 0
  · rw [hm, hn]
  · exact absurd (hm ▸ h) fun h0 => (zero_case n hn h0).elim
  · exact absurd (hn ▸ h).symm fun h0 => (zero_case m hm h0).elim
  · have hd : (Nat.digits 10 m).reverse.map Nat.digitChar =
        (Nat.digits 10 n).reverse.map Nat.digitChar := by
      have := congrArg String.data h
      rwa [digits_of_data m hm, digits_of_data n hn] at this
    have hrev : (Nat.digits 10 m).reverse = (Nat.digits 10 n).reverse :=
      map_digitChar_inj (bounds m) (bounds n) hd
    have hdig : Nat.digits 10 m = Nat.digits 10 n :=
      List.reverse_injective hrev
    have := congrArg (Nat.ofDigits 10) hdig
    rwa [Nat.ofDigits_digits, Nat.ofDigits_digits] at this

theorem dash_split_first : ∀ (a c b d : List Char), '-' ∉ a → '-' ∉ c →
    a ++ '-' :: b = c ++ '-' :: d → a = c ∧ b = d := by
  intro a
  induction a with
  | nil =>
    intro c b d _ hc h
    cases c with
    | nil => simpa using h
    | cons y ys =>
      exfalso
      have hy : '-' = y := by simpa using congrArg (fun l => l.head?) h
      exact hc (hy ▸ List.mem_cons_self y ys)
  | cons x xs ih =>
    intro c b d ha hc h
    cases c with
    | nil =>
      exfalso
      have hx : x = '-' := by simpa using congrArg (fun l => l.head?) h
      exact ha (hx ▸ List.mem_cons_self x xs)
    | cons y ys =>
      have hx : x = y := by simpa using congrArg (fun l => l.head?) h
      have ht : xs ++ '-' :: b = ys ++ '-' :: d := by
        simpa using congrArg List.tail h
      have hxs : '-' ∉ xs := fun hm => ha (List.mem_cons_of_mem x hm)
      have hys : '-' ∉ ys := fun hm => hc (List.mem_cons_of_mem y hm)
      rcases ih ys b d hxs hys ht with ⟨h1, h2⟩
      exact ⟨by rw [hx, h1], h2⟩

theorem dash_split_last (a c b d : List Char) (hb : '-' ∉ b) (hd : '-' ∉ d)
    (h : a ++ '-' :: b = c ++ '-' :: d) : a = c ∧ b = d := by
  have h' : b.reverse ++ '-' :: a.reverse = d.reverse ++ '-' :: c.reverse := by
    have := congrArg List.reverse h
    simpa [List.reverse_append, List.reverse_cons, List.append_assoc]
      using this
  rcases dash_split_first b.reverse d.reverse a.reverse c.reverse
      (by simpa using hb) (by simpa using hd) h' with ⟨h1, h2⟩
  exact ⟨List.reverse_injective h2, List.reverse_injective h1⟩

/-- The certificate-id template is injective in the enrollment id and the
issuance timestamp: the timestamp occupies the segment after the last dash
and is dash-free, so the rendered string determines both components. -/
theorem certIdStr_inj (id1 id2 : String) (n1 n2 : Nat)
    (h : certIdStr id1 n1 = certIdStr id2 n2) : id1 = id2 ∧ n1 = n2 := by
  unfold certIdStr at h
  have hdata : "CERT-".data ++ (id1.data ++ '-' :: (natStr n1).data) =
      "CERT-".data ++ (id2.data ++ '-' :: (natStr n2).data) := by
    have hd := congrArg String.data h
    simpa [List.append_assoc] using hd
  have hmid : id1.data ++ '-' :: (natStr n1).data =
      id2.data ++ '-' :: (natStr n2).data :=
    List.append_cancel_left hdata
  rcases dash_split_last id1.data id2.data (natStr n1).data (natStr n2).data
      (natStr_no_dash n1) (natStr_no_dash n2) hmid with ⟨h1, h2⟩
  exact ⟨String.ext h1, natStr_inj (String.ext h2)⟩

/-! ### Concrete records used to instantiate the theorems -/

/-- A freshly created enrollment (all schema defaults). -/
def sampleE : Enrollment :=
  { id := "e1"
    student := "s1"
    course := "c1"
    instructor := "i1"
    enrollmentDate := 0
    completionDate := Option.none
    status := .active
    progress := 0
    completedLectures := []
    lastAccessed := 0
    totalTimeSpent := 0
    certificate := ⟨false, Option.none, Option.none, Option.none⟩
    payment := ⟨49, "USD", .credit_card, "txn-1", .completed, 0⟩
    notes := Option.none
    rating := ⟨false, Option.none, Option.none, Option.none⟩
    accessExpiry := Option.none
    isLifetime := true
    refundRequested := false
    refundReason := Option.none
    refundStatus := .none
    refundProcessedAt := Option.none
    refundAmount := Option.none }

/-- An enrollment with one completed lecture. -/
def sampleL : Enrollment :=
  { sampleE with completedLectures := [⟨"L1", 0, 3⟩], progress := 10 }

/-- An enrollment that has reached full progress. -/
def sampleDone : Enrollment := { sampleE with progress := 100 }

/-- An enrollment violating the certificate, refund and review
preconditions at once. -/
def sampleBad : Enrollment :=
  { sampleE with
      progress := 50
      refundRequested := true
      rating := ⟨true, some 3, Option.none, some 1⟩ }

/-! ### Claims -/

/-- C1: on save, a record with `progress = 100` and `status ≠ completed`
transitions to `status = completed` with `completionDate = now`; a save with
`progress ≠ 100` changes nothing (so `completionDate` is not set before
progress reaches 100); a save of an already-completed record changes nothing;
hence after the transition, any further save with `progress = 100` leaves
`status` and `completionDate` unchanged. -/
theorem preSave_completion_transition (now now2 : Nat) (e : Enrollment) :
    (e.progress = 100 ∧ e.status ≠ EStatus.completed →
      preSave now e =
        { e with status := .completed, completionDate := some now }) ∧
    (e.progress ≠ 100 → preSave now e = e) ∧
    (e.status = EStatus.completed → preSave now e = e) ∧
    (e.progress = 100 → preSave now2 (preSave now e) = preSave now e) := by
  refine ⟨?_, ?_, preSave_of_completed now e, ?_⟩
  · intro h
    unfold preSave
    rw [if_pos h]
  · intro h
    unfold preSave
    rw [if_neg]
    intro hc
    exact h hc.1
  · intro h
    by_cases hs : e.status = EStatus.completed
    · rw [preSave_of_completed now e hs]
      exact preSave_of_completed now2 e hs
    · have hstep : preSave now e =
          { e with status := .completed, completionDate := some now } := by
        unfold preSave
        rw [if_pos ⟨h, hs⟩]
      rw [hstep]
      exact preSave_of_completed now2 _ rfl

/-- Witness for C1 at concrete records. -/
theorem preSave_completion_transition_witness :
    (preSave 5 { sampleE with progress := 100 } =
      { sampleE with progress := 100, status := .completed,
                     completionDate := some 5 }) ∧
    (preSave 5 sampleE = sampleE) ∧
    (preSave 5 { sampleE with status := .completed } =
      { sampleE with status := .completed }) ∧
    (preSave 7 (preSave 5 { sampleE with progress := 100 }) =
      preSave 5 { sampleE with progress := 100 }) :=
  ⟨(preSave_completion_transition 5 7 _).1 ⟨rfl, by decide⟩,
   (preSave_completion_transition 5 7 sampleE).2.1 (by decide),
   (preSave_completion_transition 5 7 _).2.2.1 rfl,
   (preSave_completion_transition 5 7 _).2.2.2 rfl⟩

/-- C3: after every `completeLecture` call the record satisfies
`progress = min 100 (completedLectures.length * 10)`, and `progress` is
within `[0, 100]` (the lower bound is inherent to `Nat`). -/
theorem completeLecture_progress_rule (lid : String) (t now : Nat)
    (e : Enrollment) :
    (completeLecture lid t now e).progress =
      min 100 ((completeLecture lid t now e).completedLectures.length * 10) ∧
    (completeLecture lid t now e).progress ≤ 100 := by
  have key : (completeLecture lid t now e).progress =
      min 100 ((completeLecture lid t now e).completedLectures.length * 10) := by
    unfold completeLecture
    by_cases hmem : e.completedLectures.any (fun cl => cl.lecture == lid)
    · rw [if_pos hmem]
      have hlen : e.completedLectures.length > 0 := by
        rcases List.any_eq_true.mp hmem with ⟨x, hx, _⟩
        exact List.length_pos.mpr (List.ne_nil_of_mem hx)
      simp only [preSave_progress, preSave_completedLectures,
        updateProgress_completedLectures]
      show (updateProgress e).progress = _
      rw [updateProgress_progress_pos e hlen]
    · rw [if_neg hmem]
      simp only [preSave_progress, preSave_completedLectures,
        updateProgress_completedLectures]
      show (updateProgress _).progress = _
      rw [updateProgress_progress_pos]
      simp
  exact ⟨key, key ▸ min_le_left 100 _⟩

/-- C6: `completeLecture` is idempotent on membership: it preserves the
invariant that each lecture id appears at most once in `completedLectures`,
and a call whose lecture id is already present leaves `completedLectures`
exactly unchanged (in particular the stored `timeSpent` entry is untouched). -/
theorem completeLecture_membership_idempotent (lid : String) (t now : Nat)
    (e : Enrollment) :
    ((e.completedLectures.map fun cl => cl.lecture).Nodup →
      ((completeLecture lid t now e).completedLectures.map
        fun cl => cl.lecture).Nodup) ∧
    (e.completedLectures.any (fun cl => cl.lecture == lid) = true →
      (completeLecture lid t now e).completedLectures = e.completedLectures) := by
  constructor
  · intro hnd
    unfold completeLecture
    by_cases hmem : e.completedLectures.any (fun cl => cl.lecture == lid)
    · rw [if_pos hmem]
      simpa using hnd
    · rw [if_neg hmem]
      simp only [preSave_completedLectures, updateProgress_completedLectures]
      show ((e.completedLectures ++ [(⟨lid, now, t⟩ : CompletedLecture)]).map
        fun cl : CompletedLecture => cl.lecture).Nodup
      rw [List.map_append, List.nodup_append]
      refine ⟨hnd, List.nodup_singleton lid, ?_⟩
      intro x hx hx1
      rcases List.mem_map.mp hx with ⟨cl, hcl, hcle⟩
      rcases List.mem_singleton.mp hx1
      have : ¬(cl.lecture == lid) := by
        intro hb
        exact hmem (List.any_eq_true.mpr ⟨cl, hcl, hb⟩)
      exact this (beq_iff_eq.mpr hcle)
  · intro hmem
    unfold completeLecture
    rw [if_pos hmem]
    simp

/-- C2 (amended): `issueCertificate` succeeds iff `progress = 100` and
`certificate.issued = false`; on success it sets `issued := true`, stamps
`issuedAt := now`, generates `certificateId = CERT-<id>-<now>` — a string
that uniquely determines the `(enrollment id, issuance time)` pair — and the
download url derived from it; on either violated precondition it fails with
the single message
`Cannot issue certificate: course not completed or already issued`, and the
record is untouched, so a second call after a success always fails and never
issues a second certificate. -/
theorem issueCertificate_rule (now now2 : Nat) (e : Enrollment) :
    (e.progress = 100 ∧ e.certificate.issued = false →
      ∃ e', issueCertificate now e = .ok e' ∧
        e'.certificate.issued = true ∧
        e'.certificate.issuedAt = some now ∧
        e'.certificate.certificateId = some (certIdStr e.id now) ∧
        e'.certificate.downloadUrl =
          some ("/certificates/" ++ certIdStr e.id now)) ∧
    (¬(e.progress = 100 ∧ e.certificate.issued = false) →
      issueCertificate now e =
        .err "Cannot issue certificate: course not completed or already issued"
          e) ∧
    (∀ e', issueCertificate now e = .ok e' →
      issueCertificate now2 e' =
        .err "Cannot issue certificate: course not completed or already issued"
          e') ∧
    (∀ id1 id2 : String, ∀ n1 n2 : Nat,
      certIdStr id1 n1 = certIdStr id2 n2 → id1 = id2 ∧ n1 = n2) := by
  refine ⟨?_, ?_, ?_, fun id1 id2 n1 n2 => certIdStr_inj id1 id2 n1 n2⟩
  · intro h
    unfold issueCertificate
    rw [if_pos h]
    exact ⟨_, rfl, by simp, by simp, by simp, by simp⟩
  · intro h
    unfold issueCertificate
    rw [if_neg h]
  · intro e' hok
    unfold issueCertificate at hok
    split at hok
    · cases hok
      unfold issueCertificate
      rw [if_neg]
      intro hc
      have h2 := hc.2
      simp at h2
    · cases hok

/-- C2 counterexample to the claim as stated: on a record with
`progress = 50` the call fails, but the error message is the full source
string, not the fragment quoted by the claim. -/
theorem issueCertificate_message_counterexample :
    issueCertificate 7 sampleBad =
      MResult.err
        "Cannot issue certificate: course not completed or already issued"
        sampleBad ∧
    "Cannot issue certificate: course not completed or already issued" ≠
      "course not completed or already issued" :=
  ⟨rfl, by decide⟩

/-- Witness for C2. -/
theorem issueCertificate_rule_witness :
    (∃ e', issueCertificate 5 sampleDone = .ok e' ∧
      e'.certificate.issued = true ∧
      e'.certificate.issuedAt = some 5 ∧
      e'.certificate.certificateId = some (certIdStr sampleDone.id 5) ∧
      e'.certificate.downloadUrl =
        some ("/certificates/" ++ certIdStr sampleDone.id 5)) ∧
    (issueCertificate 5 sampleBad =
      .err "Cannot issue certificate: course not completed or already issued"
        sampleBad) ∧
    (issueCertificate 9 ((issueCertificate 5 sampleDone).state) =
      .err "Cannot issue certificate: course not completed or already issued"
        ((issueCertificate 5 sampleDone).state)) ∧
    (("e1" : String) = "e1" ∧ (3 : Nat) = 3) :=
  ⟨(issueCertificate_rule 5 9 sampleDone).1 ⟨rfl, rfl⟩,
   (issueCertificate_rule 5 9 sampleBad).2.1 (by decide),
   (issueCertificate_rule 5 9 sampleDone).2.2.1 _ rfl,
   (issueCertificate_rule 5 9 sampleDone).2.2.2 "e1" "e1" 3 3 rfl⟩

/-- C4: `requestRefund` succeeds exactly when `refundRequested = false`,
setting `refundRequested = true`, storing the reason and setting
`refundStatus = pending`; once `refundRequested = true`, every later call
fails with `Refund already requested` whatever its arguments, and every
defined operation leaves `refundRequested = true`. -/
theorem requestRefund_exactly_once (reason reason2 lid : String)
    (t rv : Nat) (rev : Option String) (rs : RefundStatus) (amt : Option Nat)
    (now now2 : Nat) (e : Enrollment) :
    (e.refundRequested = false →
      ∃ e', requestRefund reason now e = .ok e' ∧
        e'.refundRequested = true ∧ e'.refundReason = some reason ∧
        e'.refundStatus = .pending) ∧
    (e.refundRequested = true →
      requestRefund reason2 now2 e = .err "Refund already requested" e) ∧
    (e.refundRequested = true →
      (preSave now e).refundRequested = true ∧
      (completeLecture lid t now e).refundRequested = true ∧
      ((issueCertificate now e).state).refundRequested = true ∧
      ((requestRefund reason2 now2 e).state).refundRequested = true ∧
      ((addReview rv rev now e).state).refundRequested = true ∧
      ((updateRefundStatus rs amt now e).state).refundRequested = true) := by
  refine ⟨?_, ?_, ?_⟩
  · intro h
    unfold requestRefund
    rw [if_neg (by simp [h])]
    exact ⟨_, rfl, by simp, by simp, by simp⟩
  · intro h
    unfold requestRefund
    rw [if_pos h]
  · intro h
    refine ⟨by simp [h], ?_, ?_, ?_, ?_, ?_⟩
    · unfold completeLecture
      simp only [preSave_refundRequested, updateProgress_refundRequested]
      split <;> simp [h]
    · unfold issueCertificate
      split <;> simp [MResult.state, h]
    · unfold requestRefund
      rw [if_pos h]
      exact h
    · unfold addReview
      split <;> simp [MResult.state, h]
    · unfold updateRefundStatus
      split
      · cases amt with
        | none => simp [MResult.state, h]
        | some a =>
          by_cases ha : a ≠ 0 <;> simp [MResult.state, ha, h]
      · simp [MResult.state, h]

/-- Witness for C4: a fresh record accepts the request; a record with the
refund already requested rejects it and is left untouched by every
operation. -/
theorem requestRefund_exactly_once_witness :
    (∃ e', requestRefund "too hard" 5 sampleE = .ok e' ∧
      e'.refundRequested = true ∧ e'.refundReason = some "too hard" ∧
      e'.refundStatus = .pending) ∧
    (requestRefund "again" 6 { sampleE with refundRequested := true } =
      .err "Refund already requested" { sampleE with refundRequested := true }) ∧
    ((preSave 5 { sampleE with refundRequested := true }).refundRequested = true ∧
      (completeLecture "L1" 2 5
        { sampleE with refundRequested := true }).refundRequested = true ∧
      ((issueCertificate 5
        { sampleE with refundRequested := true }).state).refundRequested = true ∧
      ((requestRefund "again" 6
        { sampleE with refundRequested := true }).state).refundRequested = true ∧
      ((addReview 4 Option.none 5
        { sampleE with refundRequested := true }).state).refundRequested = true ∧
      ((updateRefundStatus .approved (some 49) 5
        { sampleE with refundRequested := true }).state).refundRequested = true) :=
  ⟨(requestRefund_exactly_once "too hard" "again" "L1" 2 4 Option.none
      .approved (some 49) 5 6 sampleE).1 rfl,
   (requestRefund_exactly_once "too hard" "again" "L1" 2 4 Option.none
      .approved (some 49) 5 6 { sampleE with refundRequested := true }).2.1 rfl,
   (requestRefund_exactly_once "too hard" "again" "L1" 2 4 Option.none
      .approved (some 49) 5 6 { sampleE with refundRequested := true }).2.2 rfl⟩

/-- C7: `addReview` flips `rating.given` from false to true exactly once,
storing the rating value, review text and review timestamp; when
`rating.given` is already true it fails with the conflict message and leaves
the stored rating unchanged. -/
theorem addReview_exactly_once (rv rv2 : Nat) (rev rev2 : Option String)
    (now now2 : Nat) (e : Enrollment) :
    (e.rating.given = false →
      ∃ e', addReview rv rev now e = .ok e' ∧
        e'.rating.given = true ∧ e'.rating.rating = some rv ∧
        e'.rating.review = rev ∧ e'.rating.reviewedAt = some now) ∧
    (e.rating.given = true →
      addReview rv rev now e = .err "You have already reviewed this course" e ∧
      ((addReview rv rev now e).state).rating = e.rating) ∧
    (∀ e', addReview rv rev now e = .ok e' →
      addReview rv2 rev2 now2 e' =
        .err "You have already reviewed this course" e') := by
  refine ⟨?_, ?_, ?_⟩
  · intro h
    unfold addReview
    rw [if_neg (by simp [h])]
    exact ⟨_, rfl, by simp, by simp, by simp, by simp⟩
  · intro h
    unfold addReview
    rw [if_pos h]
    exact ⟨rfl, rfl⟩
  · intro e' hok
    unfold addReview at hok
    split at hok
    · cases hok
    · cases hok
      unfold addReview
      rw [if_pos (by simp)]

/-- Witness for C7. -/
theorem addReview_exactly_once_witness :
    (∃ e', addReview 4 (some "nice") 5 sampleE = .ok e' ∧
      e'.rating.given = true ∧ e'.rating.rating = some 4 ∧
      e'.rating.review = some "nice" ∧ e'.rating.reviewedAt = some 5) ∧
    (addReview 4 (some "nice") 5
        { sampleE with rating := ⟨true, some 3, Option.none, some 1⟩ } =
      .err "You have already reviewed this course"
        { sampleE with rating := ⟨true, some 3, Option.none, some 1⟩ } ∧
      ((addReview 4 (some "nice") 5
        { sampleE with rating := ⟨true, some 3, Option.none, some 1⟩ }).state).rating =
        ({ sampleE with rating := ⟨true, some 3, Option.none, some 1⟩ } :
          Enrollment).rating) ∧
    (addReview 2 Option.none 9
        (preSave 5 { sampleE with rating :=
          ⟨true, some 4, some "nice", some 5⟩ }) =
      .err "You have already reviewed this course"
        (preSave 5 { sampleE with rating :=
          ⟨true, some 4, some "nice", some 5⟩ })) :=
  ⟨(addReview_exactly_once 4 2 (some "nice") Option.none 5 9 sampleE).1 rfl,
   (addReview_exactly_once 4 2 (some "nice") Option.none 5 9
      { sampleE with rating := ⟨true, some 3, Option.none, some 1⟩ }).2.1 rfl,
   (addReview_exactly_once 4 2 (some "nice") Option.none 5 9 sampleE).2.2
      (preSave 5 { sampleE with rating := ⟨true, some 4, some "nice", some 5⟩ })
      rfl⟩

/-- C8: for every current `refundStatus` of the record and every new status
in the accepted input set {pending, approved, rejected}, the admin
refund-status update succeeds, sets `refundStatus` to the new status
unconditionally (no legal-transition validation), stamps
`refundProcessedAt = now`, and records a provided non-zero `refundAmount`
(an absent amount leaves the stored one unchanged). -/
theorem updateRefundStatus_no_transition_check (newStatus : RefundStatus)
    (amt : Option Nat) (now : Nat) (e : Enrollment) :
    newStatus = .pending ∨ newStatus = .approved ∨ newStatus = .rejected →
      ∃ e', updateRefundStatus newStatus amt now e = .ok e' ∧
        e'.refundStatus = newStatus ∧
        e'.refundProcessedAt = some now ∧
        (∀ a, amt = some a → a ≠ 0 → e'.refundAmount = some a) ∧
        (amt = Option.none → e'.refundAmount = e.refundAmount) := by
  intro h
  unfold updateRefundStatus
  rw [if_pos h]
  refine ⟨_, rfl, ?_, ?_, ?_, ?_⟩
  · cases amt with
    | none => simp
    | some a => by_cases ha : a ≠ 0 <;> simp [ha]
  · cases amt with
    | none => simp
    | some a => by_cases ha : a ≠ 0 <;> simp [ha]
  · intro a haeq ha
    cases haeq
    simp [ha]
  · intro haeq
    cases haeq
    simp

/-- Witness for C8: the record currently has `refundStatus = approved` and is
moved back to `pending` with amount 49 — no transition check fires. -/
theorem updateRefundStatus_no_transition_check_witness :
    ∃ e', updateRefundStatus .pending (some 49) 8
        { sampleE with refundStatus := .approved } = .ok e' ∧
      e'.refundStatus = .pending ∧
      e'.refundProcessedAt = some 8 ∧
      (∀ a, (some 49 : Option Nat) = some a → a ≠ 0 →
        e'.refundAmount = some a) ∧
      ((some 49 : Option Nat) = Option.none →
        e'.refundAmount =
          ({ sampleE with refundStatus := .approved } : Enrollment).refundAmount) :=
  updateRefundStatus_no_transition_check .pending (some 49) 8
    { sampleE with refundStatus := .approved } (Or.inl rfl)

/-- A published course. -/
def sampleC : Course :=
  { id := "c1", instructor := "i1", price := 49, currency := "USD",
    status := "published", enrollmentCount := 3 }

/-- The same course in draft state. -/
def sampleCdraft : Course := { sampleC with status := "draft" }

/-- C5: `enroll` fails 404 `NotFound` when the course is missing (whatever
the duplicate-enrollment lookup returned, showing the check order), 400
`InvalidState` when the course is not published, 400 `Conflict` when an
enrollment already exists; on success it creates an enrollment with
`status = active`, `progress = 0`, `payment.status = completed`, the
instructor copied from the course, and bumps the course's
`enrollmentCount` by one. -/
theorem enroll_rule (userId courseId : String) (method : PayMethod)
    (txnId newId : String) (now : Nat) (c : Course)
    (existing? : Option Enrollment) (ex : Enrollment) :
    (enroll userId courseId method txnId newId now Option.none existing? =
      .error (404, "Course not found")) ∧
    (c.status ≠ "published" →
      enroll userId courseId method txnId newId now (some c) existing? =
        .error (400, "Course is not available for enrollment")) ∧
    (c.status = "published" →
      enroll userId courseId method txnId newId now (some c) (some ex) =
        .error (400, "You are already enrolled in this course")) ∧
    (c.status = "published" →
      ∃ e c', enroll userId courseId method txnId newId now (some c)
          Option.none = .ok (e, c') ∧
        e.status = .active ∧ e.progress = 0 ∧
        e.payment.status = .completed ∧ e.instructor = c.instructor ∧
        e.student = userId ∧ e.course = courseId ∧
        c'.enrollmentCount = c.enrollmentCount + 1) := by
  refine ⟨rfl, ?_, ?_, ?_⟩
  · intro h
    show (if c.status ≠ "published" then _ else _) = _
    rw [if_pos h]
  · intro h
    show (if c.status ≠ "published" then _ else _) = _
    rw [if_neg (by simp [h])]
  · intro h
    show ∃ e c', (if c.status ≠ "published" then _ else _) = _ ∧ _
    rw [if_neg (by simp [h])]
    exact ⟨_, _, rfl, by simp [preSave], by simp, by simp [preSave],
      by simp [preSave], by simp [preSave], by simp [preSave], rfl⟩

/-- Witness for C5 over the sample course. -/
theorem enroll_rule_witness :
    (enroll "s1" "c1" .credit_card "txn-1" "e9" 7 Option.none (some sampleE) =
      .error (404, "Course not found")) ∧
    (enroll "s1" "c1" .credit_card "txn-1" "e9" 7 (some sampleCdraft)
        (some sampleE) =
      .error (400, "Course is not available for enrollment")) ∧
    (enroll "s1" "c1" .credit_card "txn-1" "e9" 7 (some sampleC)
        (some sampleE) =
      .error (400, "You are already enrolled in this course")) ∧
    (∃ e c', enroll "s1" "c1" .credit_card "txn-1" "e9" 7 (some sampleC)
        Option.none = .ok (e, c') ∧
      e.status = .active ∧ e.progress = 0 ∧
      e.payment.status = .completed ∧ e.instructor = sampleC.instructor ∧
      e.student = "s1" ∧ e.course = "c1" ∧
      c'.enrollmentCount = sampleC.enrollmentCount + 1) :=
  ⟨(enroll_rule "s1" "c1" .credit_card "txn-1" "e9" 7 sampleC
      (some sampleE) sampleE).1,
   (enroll_rule "s1" "c1" .credit_card "txn-1" "e9" 7 sampleCdraft
      (some sampleE) sampleE).2.1 (by decide),
   (enroll_rule "s1" "c1" .credit_card "txn-1" "e9" 7 sampleC
      (some sampleE) sampleE).2.2.1 rfl,
   (enroll_rule "s1" "c1" .credit_card "txn-1" "e9" 7 sampleC
      (some sampleE) sampleE).2.2.2 rfl⟩

/-- C9: `isExpired` is always false for a lifetime enrollment; for a
non-lifetime enrollment it is true exactly when the current time is strictly
past a set `accessExpiry` (an unset `accessExpiry` yields a falsy value). -/
theorem isExpired_rule (now : Nat) (e : Enrollment) :
    (e.isLifetime = true → isExpired now e = false) ∧
    (e.isLifetime = false →
      (isExpired now e = true ↔ ∃ t, e.accessExpiry = some t ∧ now > t)) := by
  constructor
  · intro h
    unfold isExpired
    rw [if_pos h]
  · intro h
    unfold isExpired
    rw [if_neg (by simp [h])]
    cases hae : e.accessExpiry with
    | none => simp [hae]
    | some t => simp [hae]

/-- Witness for C9: a lifetime record is never expired; a non-lifetime record
with expiry 5 is expired at time 10. -/
theorem isExpired_rule_witness :
    isExpired 10 sampleE = false ∧
    (isExpired 10 { sampleE with isLifetime := false, accessExpiry := some 5 } =
       true ↔
     ∃ t, ({ sampleE with isLifetime := false, accessExpiry := some 5 } :
       Enrollment).accessExpiry = some t ∧ 10 > t) :=
  ⟨(isExpired_rule 10 sampleE).1 rfl,
   (isExpired_rule 10
      { sampleE with isLifetime := false, accessExpiry := some 5 }).2 rfl⟩

/-- C10: when `issueCertificate`, `requestRefund` or the review handler
rejects a call on its precondition, the record state at the failure is
exactly the input record: the error is raised before any field mutation. -/
theorem failing_precondition_atomic (rv : Nat) (rev : Option String)
    (reason : String) (now : Nat) (e : Enrollment) :
    ((issueCertificate now e).isErr = true →
      (issueCertificate now e).state = e) ∧
    ((requestRefund reason now e).isErr = true →
      (requestRefund reason now e).state = e) ∧
    ((addReview rv rev now e).isErr = true →
      (addReview rv rev now e).state = e) := by
  refine ⟨?_, ?_, ?_⟩
  · unfold issueCertificate
    split <;> simp [MResult.state, MResult.isErr]
  · unfold requestRefund
    split <;> simp [MResult.state, MResult.isErr]
  · unfold addReview
    split <;> simp [MResult.state, MResult.isErr]

/-- Witness for C10 at a record violating all three preconditions. -/
theorem failing_precondition_atomic_witness :
    (issueCertificate 7 sampleBad).state = sampleBad ∧
    (requestRefund "why" 7 sampleBad).state = sampleBad ∧
    (addReview 4 Option.none 7 sampleBad).state = sampleBad :=
  ⟨(failing_precondition_atomic 4 Option.none "why" 7 sampleBad).1 (by decide),
   (failing_precondition_atomic 4 Option.none "why" 7 sampleBad).2.1 (by decide),
   (failing_precondition_atomic 4 Option.none "why" 7 sampleBad).2.2 (by decide)⟩

/-- Witness for C6 at a record already containing lecture `L1`. -/
theorem completeLecture_membership_idempotent_witness :
    ((completeLecture "L1" 4 9 sampleL).completedLectures.map
      fun cl => cl.lecture).Nodup ∧
    (completeLecture "L1" 4 9 sampleL).completedLectures =
      sampleL.completedLectures :=
  ⟨(completeLecture_membership_idempotent "L1" 4 9 sampleL).1 (by decide),
   (completeLecture_membership_idempotent "L1" 4 9 sampleL).2 (by decide)⟩

end EduGlobe
